import Mathlib

/-!
Shallow embedding of the riot-demo multi-platform resolution and aggregation
engine, together with proofs about it.  The definitions below are translated
from the TypeScript sources:

  * src/utils/riot-id-parser.ts     (RiotIdParser)
  * src/utils/platform-mapping.ts   (REGION_PLATFORMS, getPlatformsForRegion)
  * src/utils/parallel-queries.ts   (queryPlatformsInParallel)
  * src/api/riot-client.ts          (RiotClient, _handleApiError)
  * src/api/errors.ts               (error taxonomy)
  * src/api/error-handler.ts        (handleApiError route mapping)
  * src/services/cache.ts           (CacheService over node-cache)
  * src/server/index.ts             (GET /api/account orchestrator)

JavaScript runtime behaviour that the sources rely on is modelled explicitly:
percent-decoding (`decodeURIComponent`, which throws `URIError` on malformed
escapes), string trimming, `String.prototype.split`, truthiness-based
defaulting (`x || y`), `parseInt`, and IEEE NaN (modelled as `Option.none`
since `0/0` is the only division the code can perform with a zero divisor,
and `JSON.stringify` serialises `NaN` as `null`).
-/

/-! ## JavaScript string primitives -/

/-- Whitespace as recognised by `String.prototype.trim` (the ASCII portion
plus NBSP and the BOM, which suffice for the inputs considered here). -/
def jsIsSpace (c : Char) : Bool :=
  c = ' ' || c = '\t' || c = '\n' || c = '\r' ||
  c = Char.ofNat 0x0B || c = Char.ofNat 0x0C ||
  c = Char.ofNat 0xA0 || c = Char.ofNat 0xFEFF

/-- `String.prototype.trim` on a character list. -/
def jsTrimL (cs : List Char) : List Char :=
  ((cs.dropWhile jsIsSpace).reverse.dropWhile jsIsSpace).reverse

/-- `String.prototype.trim`. -/
def jsTrim (s : String) : String :=
  String.mk (jsTrimL s.data)

/-- Value of a single hex digit, if any. -/
def hexDigit? (c : Char) : Option Nat :=
  if '0' ≤ c ∧ c ≤ '9' then some (c.toNat - '0'.toNat)
  else if 'a' ≤ c ∧ c ≤ 'f' then some (c.toNat - 'a'.toNat + 10)
  else if 'A' ≤ c ∧ c ≤ 'F' then some (c.toNat - 'A'.toNat + 10)
  else none

/-- Value of a two-hex-digit byte, if both digits are valid. -/
def hexByte? (a b : Char) : Option Nat :=
  match hexDigit? a, hexDigit? b with
  | some x, some y => some (16 * x + y)
  | _, _ => none

/-- Allowed range of the second byte of a three-byte UTF-8 sequence. -/
def utf8Lo3 (lead : Nat) : Nat := if lead = 0xE0 then 0xA0 else 0x80

/-- Upper bound of the second byte of a three-byte UTF-8 sequence. -/
def utf8Hi3 (lead : Nat) : Nat := if lead = 0xED then 0x9F else 0xBF

/-- Allowed range of the second byte of a four-byte UTF-8 sequence. -/
def utf8Lo4 (lead : Nat) : Nat := if lead = 0xF0 then 0x90 else 0x80

/-- Upper bound of the second byte of a four-byte UTF-8 sequence. -/
def utf8Hi4 (lead : Nat) : Nat := if lead = 0xF4 then 0x8F else 0xBF

/-- `decodeURIComponent` on a character list: every `%HH` escape is decoded,
consecutive escapes are combined per strict UTF-8, and `none` models the
`URIError` thrown on malformed escapes (bad hex digits, truncated escapes,
invalid or overlong UTF-8 sequences). -/
def decodeCore : List Char → Option (List Char)
  | [] => some []
  | '%' :: h1 :: h2 :: rest =>
    match hexByte? h1 h2 with
    | none => none
    | some b =>
      if b < 0x80 then (decodeCore rest).map (Char.ofNat b :: ·)
      else if 0xC2 ≤ b ∧ b ≤ 0xDF then
        match rest with
        | '%' :: h3 :: h4 :: rest2 =>
          match hexByte? h3 h4 with
          | some b2 =>
            if 0x80 ≤ b2 ∧ b2 ≤ 0xBF then
              (decodeCore rest2).map
                (Char.ofNat ((b - 0xC0) * 0x40 + (b2 - 0x80)) :: ·)
            else none
          | none => none
        | _ => none
      else if 0xE0 ≤ b ∧ b ≤ 0xEF then
        match rest with
        | '%' :: h3 :: h4 :: '%' :: h5 :: h6 :: rest2 =>
          match hexByte? h3 h4, hexByte? h5 h6 with
          | some b2, some b3 =>
            if (utf8Lo3 b ≤ b2 ∧ b2 ≤ utf8Hi3 b) ∧ (0x80 ≤ b3 ∧ b3 ≤ 0xBF) then
              (decodeCore rest2).map
                (Char.ofNat ((b - 0xE0) * 0x1000 + (b2 - 0x80) * 0x40 + (b3 - 0x80)) :: ·)
            else none
          | _, _ => none
        | _ => none
      else if 0xF0 ≤ b ∧ b ≤ 0xF4 then
        match rest with
        | '%' :: h3 :: h4 :: '%' :: h5 :: h6 :: '%' :: h7 :: h8 :: rest2 =>
          match hexByte? h3 h4, hexByte? h5 h6, hexByte? h7 h8 with
          | some b2, some b3, some b4 =>
            if (utf8Lo4 b ≤ b2 ∧ b2 ≤ utf8Hi4 b) ∧ (0x80 ≤ b3 ∧ b3 ≤ 0xBF) ∧
               (0x80 ≤ b4 ∧ b4 ≤ 0xBF) then
              (decodeCore rest2).map
                (Char.ofNat ((b - 0xF0) * 0x40000 + (b2 - 0x80) * 0x1000 +
                  (b3 - 0x80) * 0x40 + (b4 - 0x80)) :: ·)
            else none
          | _, _, _ => none
        | _ => none
      else none
  | '%' :: _ => none
  | c :: cs => (decodeCore cs).map (c :: ·)

/-- `decodeURIComponent` on strings; `none` models a thrown `URIError`. -/
def decodeURIComponentJs (s : String) : Option String :=
  (decodeCore s.data).map String.mk

/-- `String.prototype.split` with separator `"#"`:
`"a#b#c"` gives `["a","b","c"]`, the empty string gives `[""]`. -/
def splitOnHash : List Char → List (List Char)
  | [] => [[]]
  | c :: rest =>
    if c = '#' then [] :: splitOnHash rest
    else
      match splitOnHash rest with
      | h :: tl => (c :: h) :: tl
      | [] => [[c]]

/-- Truthiness of `x?.trim()` being falsy: `undefined` (field absent) or the
trimmed string empty. Models `!gameName?.trim()`. -/
def jsFalsyOptTrim (x : Option (List Char)) : Bool :=
  match x with
  | none => true
  | some l => (jsTrimL l).isEmpty

/-! ## Riot ID parser (src/utils/riot-id-parser.ts) -/

/-- JavaScript exceptions the parser can raise: `URIError` from
`decodeURIComponent`, `TypeError` from calling `.trim()` on `undefined`, and
the generic `Error` thrown by `parse` on invalid format (what the spec
calls `FormatError`), carrying its message. -/
inductive JsErr where
  | uriError : JsErr
  | typeError : JsErr
  | formatError (msg : String) : JsErr
deriving DecidableEq, Repr

/-- A raw value arriving at `isValid`: either a string or a non-string. -/
inductive JsInput where
  | str (s : String) : JsInput
  | nonstring : JsInput
deriving DecidableEq, Repr

/-- Parsed Riot ID. -/
structure RiotId where
  gameName : String
  tagLine : String
deriving DecidableEq, Repr

namespace RiotIdParser

/-- `RiotIdParser.isValid` on the character list of a string argument:
rejects the empty string, percent-decodes (propagating `URIError`), requires
exactly one `#`, and requires both halves non-empty after trimming. -/
def isValidCore (cs : List Char) : Except JsErr Bool :=
  if cs.isEmpty then .ok false
  else
    match decodeCore cs with
    | none => .error .uriError
    | some d =>
      if d.count '#' ≠ 1 then .ok false
      else if jsFalsyOptTrim (splitOnHash d)[0]? ||
              jsFalsyOptTrim (splitOnHash d)[1]? then .ok false
      else .ok true

/-- `RiotIdParser.isValid` on a string. -/
def isValid (s : String) : Except JsErr Bool :=
  isValidCore s.data

/-- `RiotIdParser.isValid` including the non-string guard
(the typeof-string guard in the source). -/
def isValidInput : JsInput → Except JsErr Bool
  | .nonstring => .ok false
  | .str s => isValid s

/-- The message of the `Error` thrown by `parse`; note it interpolates the
DECODED string, not the original raw argument. -/
def formatMsg (d : List Char) : String :=
  "Invalid Riot ID format: " ++ String.mk d ++
    ". Expected format: \"gameName#tagLine\""

/-- `RiotIdParser.parse`: decodes once, re-validates the decoded string with
`isValid` (which decodes a second time), then splits the once-decoded string
on `#` and trims both halves.  A missing second half at that point is a
`TypeError` (`tagLine!.trim()` on `undefined`). -/
def parseCore (cs : List Char) : Except JsErr (List Char × List Char) :=
  match decodeCore cs with
  | none => .error .uriError
  | some d =>
    match isValidCore d with
    | .error e => .error e
    | .ok false => .error (.formatError (formatMsg d))
    | .ok true =>
      match (splitOnHash d)[0]?, (splitOnHash d)[1]? with
      | some g, some t => .ok (jsTrimL g, jsTrimL t)
      | _, _ => .error .typeError

/-- `RiotIdParser.parse` on a string. -/
def parse (s : String) : Except JsErr RiotId :=
  (parseCore s.data).map fun p => ⟨String.mk p.1, String.mk p.2⟩

end RiotIdParser

/-- The shape test applied by `isValid` to a decoded string: exactly one `#`
and both halves non-empty after trimming. -/
def shapeOkB (d : List Char) : Bool :=
  d.count '#' = 1 &&
  !(jsFalsyOptTrim (splitOnHash d)[0]?) &&
  !(jsFalsyOptTrim (splitOnHash d)[1]?)

/-! ## Error taxonomy (src/api/errors.ts) -/

/-- The custom error classes thrown by the Riot client layer.
`riotApi msg code` is `RiotApiError(msg, code)`; `rateLimit r` is
`RateLimitError(r)` (status 429, `r = none` models a NaN retry-after);
`playerNotFound arg` is `PlayerNotFoundError(arg)` (status 404, message
`"Player not found: " ++ arg`); `invalidApiKey` is `InvalidApiKeyError`
(status 401, message `"Invalid API key"`). -/
inductive RiotErr where
  | riotApi (message : String) (statusCode : Nat) : RiotErr
  | rateLimit (retryAfter : Option Int) : RiotErr
  | playerNotFound (arg : String) : RiotErr
  | invalidApiKey : RiotErr
deriving DecidableEq, Repr

/-- HTTP status carried by each error class. -/
def RiotErr.statusCode : RiotErr → Nat
  | .riotApi _ c => c
  | .rateLimit _ => 429
  | .playerNotFound _ => 404
  | .invalidApiKey => 401

/-- `Error.message` of each error class. -/
def jsNumStr (x : Option Int) : String :=
  match x with
  | none => "NaN"
  | some n => toString n

/-- The `message` property of each error object. -/
def RiotErr.message : RiotErr → String
  | .riotApi m _ => m
  | .rateLimit r => "Rate limit exceeded. Retry after " ++ jsNumStr r ++ " seconds"
  | .playerNotFound arg => "Player not found: " ++ arg
  | .invalidApiKey => "Invalid API key"

/-! ## JavaScript numeric and truthiness helpers -/

/-- `parseInt(s, 10)`: skip leading whitespace, optional sign, then leading
decimal digits; `none` models NaN (no digits found). -/
def leadingNat (cs : List Char) : Option Nat :=
  let ds := cs.takeWhile Char.isDigit
  if ds.isEmpty then none
  else some (ds.foldl (fun a c => 10 * a + (c.toNat - '0'.toNat)) 0)

/-- `parseInt(s, 10)` returning `none` for NaN. -/
def jsParseInt (s : String) : Option Int :=
  match s.data.dropWhile jsIsSpace with
  | '-' :: rest => (leadingNat rest).map (fun n => -(n : Int))
  | '+' :: rest => (leadingNat rest).map (fun n => (n : Int))
  | cs => (leadingNat cs).map (fun n => (n : Int))

/-- `x || d` for an optional string (`undefined` and `""` are falsy). -/
def jsOrStr (x : Option String) (d : String) : String :=
  match x with
  | none => d
  | some s => if s = "" then d else s

/-- `x || d` for an optional number (`undefined` and `0` are falsy). -/
def jsOrNat (x : Option Nat) (d : Nat) : Nat :=
  match x with
  | none => d
  | some n => if n = 0 then d else n

/-! ## Upstream error normalisation (RiotClient._handleApiError) -/

/-- The parts of an Axios error that `_handleApiError` reads.
`respStatus = none` models a transport failure with no HTTP response. -/
structure AxiosErrorModel where
  respStatus : Option Nat
  respMessage : Option String
  errMessage : String
  retryAfterHeader : Option String
  respHeadersText : String
  configUrl : Option String
deriving DecidableEq, Repr

/-- `const status = error.response?.status || 500`. -/
def AxiosErrorModel.status (e : AxiosErrorModel) : Nat :=
  jsOrNat e.respStatus 500

/-- `const message = responseData?.status?.message || error.message`. -/
def AxiosErrorModel.upstreamMessage (e : AxiosErrorModel) : String :=
  jsOrStr e.respMessage e.errMessage

/-- `RiotClient._handleApiError`: map an upstream HTTP failure to the error
taxonomy.  The 429 branch reads the `retry-after` header
(`retryAfter ? parseInt(retryAfter, 10) : 60`). -/
def handleApiErrorFn (e : AxiosErrorModel) : RiotErr :=
  let status := e.status
  if status = 400 then .riotApi "Bad request: Invalid parameters" 400
  else if status = 401 then .invalidApiKey
  else if status = 403 then .riotApi "Forbidden: API key does not have permission" 403
  else if status = 404 then .playerNotFound "Player not found"
  else if status = 429 then
    .rateLimit (match e.retryAfterHeader with
      | some h => if h = "" then some 60 else jsParseInt h
      | none => some 60)
  else if status = 500 then .riotApi "Internal server error" 500
  else if status = 502 then .riotApi "Bad gateway" 502
  else if status = 503 then .riotApi "Service unavailable" 503
  else if status = 504 then .riotApi "Gateway timeout" 504
  else .riotApi ("API request failed: " ++ e.upstreamMessage) status

/-! ## Regions and platforms (src/types, src/utils/platform-mapping.ts) -/

/-- The platform partition enumeration. -/
inductive Platform where
  | na1 | br1 | la1 | la2 | euw1 | eun1 | me1 | tr1 | ru
  | jp1 | kr | oc1 | sg2 | tw2 | vn2
deriving DecidableEq, Repr

/-- The region enumeration accepted by the server route. -/
inductive Region where
  | americas | europe | asia
deriving DecidableEq, Repr

/-- String value of a region. -/
def regionToString : Region → String
  | .americas => "americas"
  | .europe => "europe"
  | .asia => "asia"

/-- String value of a platform. -/
def platformToString : Platform → String
  | .na1 => "na1" | .br1 => "br1" | .la1 => "la1" | .la2 => "la2"
  | .euw1 => "euw1" | .eun1 => "eun1" | .me1 => "me1" | .tr1 => "tr1"
  | .ru => "ru" | .jp1 => "jp1" | .kr => "kr" | .oc1 => "oc1"
  | .sg2 => "sg2" | .tw2 => "tw2" | .vn2 => "vn2"

/-- `REGION_PLATFORMS` / `getPlatformsForRegion`. -/
def getPlatformsForRegion : Region → List Platform
  | .americas => [.na1, .br1, .la1, .la2]
  | .europe => [.euw1, .eun1, .tr1, .ru, .me1]
  | .asia => [.kr, .jp1, .oc1, .sg2, .tw2, .vn2]

/-! ## Parallel partition query engine (src/utils/parallel-queries.ts) -/

/-- Settled outcome of one per-platform invocation: the mapped promises
always fulfil, with either `{platform, data}` or `{platform, error}`. -/
inductive POutcome (T : Type) where
  | ok (data : T) : POutcome T
  | err : POutcome T
deriving DecidableEq, Repr

/-- First loop of `queryPlatformsInParallel`: first fulfilled result carrying
`data` where `Array.isArray(data) && data.length > 0`; the array test is
passed in as `ne` since it depends on the runtime type of `T`. -/
def firstWithData {T : Type} (ne : T → Bool) (settled : Platform → POutcome T) :
    List Platform → Option (Platform × T)
  | [] => none
  | p :: ps =>
    match settled p with
    | .ok d => if ne d then some (p, d) else firstWithData ne settled ps
    | .err => firstWithData ne settled ps

/-- Second loop of `queryPlatformsInParallel`: first fulfilled result
carrying `data` at all. -/
def firstSuccess {T : Type} (settled : Platform → POutcome T) :
    List Platform → Option (Platform × T)
  | [] => none
  | p :: ps =>
    match settled p with
    | .ok d => some (p, d)
    | .err => firstSuccess settled ps

/-- `queryPlatformsInParallel`: all per-platform invocations settle, then the
first success (in platform enumeration order) with a non-empty array payload
is selected, otherwise the first success of any kind, otherwise
`PlayerNotFoundError` whose argument names the region. -/
def queryPlatformsInParallel {T : Type} (ne : T → Bool) (region : Region)
    (settled : Platform → POutcome T) : Except RiotErr (Platform × T) :=
  match firstWithData ne settled (getPlatformsForRegion region) with
  | some r => .ok r
  | none =>
    match firstSuccess settled (getPlatformsForRegion region) with
    | some r => .ok r
    | none =>
      .error (.playerNotFound
        ("Player not found on any platform in " ++ regionToString region))

/-- The settled successes, in platform enumeration order. -/
def successesOf {T : Type} (settled : Platform → POutcome T) :
    List Platform → List (Platform × T)
  | [] => []
  | p :: ps =>
    match settled p with
    | .ok d => (p, d) :: successesOf settled ps
    | .err => successesOf settled ps

/-- Modelled from the spec words (selection policy of the Parallel Partition
Query Engine, for comparison with `queryPlatformsInParallel`): prefer the
first settled success whose payload has data, otherwise the first settled
success in platform enumeration order, otherwise a `NotFoundError` naming the
region. -/
def selectBySpecPolicy {T : Type} (ne : T → Bool) (region : Region)
    (settled : Platform → POutcome T) : Except RiotErr (Platform × T) :=
  match (successesOf settled (getPlatformsForRegion region)).find?
      (fun pr => ne pr.2) with
  | some pr => .ok pr
  | none =>
    match (successesOf settled (getPlatformsForRegion region)).head? with
    | some pr => .ok pr
    | none =>
      .error (.playerNotFound
        ("Player not found on any platform in " ++ regionToString region))

/-! ## Aggregation cache (src/services/cache.ts over node-cache) -/

/-- One node-cache entry: value plus absolute expiry time in milliseconds
(`0` means no expiry). -/
structure CEntry (α : Type) where
  val : α
  expiresAt : Nat
deriving DecidableEq, Repr

/-- The in-memory store, newest binding first. -/
def CacheStore (α : Type) : Type := List (String × CEntry α)

/-- `cache.set(key, value, ttlSeconds)` at time `now` (ms): stores
`expiresAt = now + ttl * 1000`, overwriting any previous binding. -/
def cacheSet {α : Type} (st : CacheStore α) (key : String) (v : α)
    (ttlSec : Nat) (now : Nat) : CacheStore α :=
  (key, ⟨v, now + ttlSec * 1000⟩) :: st.filter (fun kv => kv.1 ≠ key)

/-- `cache.get(key)` at time `now` (ms): a binding is live while
`expiresAt = 0` or `expiresAt ≥ now` (node-cache expires a key only when
`data.t < Date.now()`). -/
def cacheGet {α : Type} (st : CacheStore α) (key : String) (now : Nat) :
    Option α :=
  match st.find? (fun kv => kv.1 = key) with
  | some kv => if kv.2.expiresAt = 0 ∨ now ≤ kv.2.expiresAt then some kv.2.val else none
  | none => none

/-- `CacheService.set(key, data, ttl)`: `cache.set(key, data, ttl || 300)`
(the configured `stdTTL` is 300 seconds). -/
def cacheServiceSet {α : Type} (st : CacheStore α) (key : String) (v : α)
    (ttl : Option Nat) (now : Nat) : CacheStore α :=
  cacheSet st key v (jsOrNat ttl 300) now

/-- `CacheTTL.account` (seconds). -/
def cacheTTLaccount : Nat := 86400

/-- `CacheTTL.icon` (seconds). -/
def cacheTTLicon : Nat := 86400

/-- `CacheKeys.account`. -/
def cacheKeyAccount (riotId region : String) : String :=
  "account:" ++ riotId ++ ":" ++ region

/-- `CacheKeys.icon`. -/
def cacheKeyIcon (iconId : Nat) : String :=
  "icon:" ++ toString iconId

/-- `CacheService.cacheAccount`. -/
def cacheAccountModel {α : Type} (st : CacheStore α) (riotId region : String)
    (v : α) (now : Nat) : CacheStore α :=
  cacheServiceSet st (cacheKeyAccount riotId region) v (some cacheTTLaccount) now

/-- `CacheService.getCachedAccount`. -/
def getCachedAccountModel {α : Type} (st : CacheStore α)
    (riotId region : String) (now : Nat) : Option α :=
  cacheGet st (cacheKeyAccount riotId region) now

/-- `CacheService.cacheIcon`. -/
def cacheIconModel {α : Type} (st : CacheStore α) (iconId : Nat) (v : α)
    (now : Nat) : CacheStore α :=
  cacheServiceSet st (cacheKeyIcon iconId) v (some cacheTTLicon) now

/-! ## Upstream data types (src/types) -/

/-- `AccountDto` from Account-V1. -/
structure AccountDto where
  puuid : String
  gameName : String
  tagLine : String
deriving DecidableEq, Repr

/-- `SummonerDto` from Summoner-V4; `id`, `accountId` and `name` may be
absent from the upstream payload (the route applies `||` fallbacks). -/
structure SummonerDto where
  id : Option String
  accountId : Option String
  puuid : String
  name : Option String
  profileIconId : Nat
  summonerLevel : Nat
  revisionDate : Nat
deriving DecidableEq, Repr

/-- `LeagueEntryDto` (the fields the route reads). -/
structure LeagueEntryDto where
  queueType : String
  tier : String
  rank : String
  leaguePoints : Nat
  wins : Nat
  losses : Nat
deriving DecidableEq, Repr

/-! ## Win-rate computation (src/server/index.ts responseData) -/

/-- JavaScript division where the divisor may be zero: `none` models the
non-finite results NaN (`0/0`) and Infinity (`x/0`, `x ≠ 0`), both of which
`JSON.stringify` serialises as `null`. -/
def jsDivNum (a b : ℚ) : Option ℚ :=
  if b = 0 then none else some (a / b)

/-- `Math.round` (half toward positive infinity); `Math.round(NaN)` is NaN. -/
def jsMathRound (x : Option ℚ) : Option Int :=
  x.map fun q => ⌊q + 1 / 2⌋

/-- `Math.round((wins / (wins + losses)) * 100)` exactly as written in the
route: the division is NOT guarded against `wins + losses = 0`. -/
def winRateNum (wins losses : Nat) : Option Int :=
  jsMathRound ((jsDivNum (wins : ℚ) ((wins : ℚ) + (losses : ℚ))).map (· * 100))

/-- A JSON number field after `res.json` serialisation: NaN and Infinity
become `null`. -/
inductive JsonNumField where
  | null : JsonNumField
  | num (n : Int) : JsonNumField
deriving DecidableEq, Repr

/-- Serialisation of a possibly-NaN number field. -/
def serializeNumField (x : Option Int) : JsonNumField :=
  match x with
  | none => .null
  | some n => .num n

/-! ## Merged response (src/server/index.ts) -/

/-- One queue block of `rankedStats`. -/
structure QueueStats where
  tier : String
  rank : String
  leaguePoints : Nat
  wins : Nat
  losses : Nat
  winRate : Option Int
deriving DecidableEq, Repr

/-- Build a `rankedStats` queue block from a selected league entry. -/
def mkQueueStats (e : LeagueEntryDto) : QueueStats :=
  { tier := e.tier, rank := e.rank, leaguePoints := e.leaguePoints,
    wins := e.wins, losses := e.losses,
    winRate := winRateNum e.wins e.losses }

/-- `rankedStats` of the merged response. -/
structure RankedStats where
  soloDuo : Option QueueStats
  flex : Option QueueStats
deriving DecidableEq, Repr

/-- `summonerInfo` of the merged response (with the `||` fallbacks applied). -/
structure SummonerInfoOut where
  id : String
  accountId : String
  puuid : String
  name : String
  profileIconId : Nat
  summonerLevel : Nat
  revisionDate : Nat
deriving DecidableEq, Repr

/-- The merged `responseData` object. -/
structure ResponseData where
  puuid : String
  gameName : String
  tagLine : String
  summonerInfo : SummonerInfoOut
  rankedStats : RankedStats
  platformSummoner : String
  platformLeague : String
deriving DecidableEq, Repr

/-- The league entries seen by the merge step: the data of the winning result, or
`[]` when the league fan-out failed (the catch block keeps the initial
`leagueEntries = []`). -/
def leagueEntriesOf (leagueRes : Option (Platform × List LeagueEntryDto)) :
    List LeagueEntryDto :=
  match leagueRes with
  | some pr => pr.2
  | none => []

/-- Build `responseData` from the account, the winning summoner result and
the (possibly failed) league fan-out result, as the route does: on a failed
league stage the entries are empty and `platform.league` is `"none"`. -/
def mkAggResponse (acct : AccountDto) (summoner : SummonerDto)
    (sumPlat : Platform) (leagueRes : Option (Platform × List LeagueEntryDto)) :
    ResponseData :=
  { puuid := acct.puuid, gameName := acct.gameName, tagLine := acct.tagLine,
    summonerInfo :=
      { id := jsOrStr summoner.id summoner.puuid,
        accountId := jsOrStr summoner.accountId summoner.puuid,
        puuid := summoner.puuid,
        name := jsOrStr summoner.name acct.gameName,
        profileIconId := summoner.profileIconId,
        summonerLevel := summoner.summonerLevel,
        revisionDate := summoner.revisionDate },
    rankedStats :=
      { soloDuo := ((leagueEntriesOf leagueRes).find?
          (fun en => en.queueType = "RANKED_SOLO_5x5")).map mkQueueStats,
        flex := ((leagueEntriesOf leagueRes).find?
          (fun en => en.queueType = "RANKED_FLEX_SR")).map mkQueueStats },
    platformSummoner := platformToString sumPlat,
    platformLeague :=
      match leagueRes with
      | some pr => platformToString pr.1
      | none => "none" }

/-! ## Route error mapping (src/api/error-handler.ts) -/

/-- The terminal HTTP response of the `GET /api/account` route. -/
inductive ApiResponse where
  | missingRiotId : ApiResponse
  | invalidRiotIdFormat (received : String) : ApiResponse
  | invalidRegion (received : String) : ApiResponse
  | apiError (status : Nat) (error : String) (message : String) : ApiResponse
  | success (data : ResponseData) (cached : Bool) : ApiResponse
deriving DecidableEq, Repr

/-- `handleApiError(error, res)` for the custom error classes. -/
def routeRiotError : RiotErr → ApiResponse
  | .invalidApiKey =>
    .apiError 401 "Invalid API key"
      "Please check your RIOT_API_KEY environment variable"
  | .playerNotFound arg =>
    .apiError 404 "Player not found" ("Player not found: " ++ arg)
  | .rateLimit r =>
    .apiError 429 "Rate limit exceeded"
      ("Please try again in " ++ jsNumStr r ++ " seconds")
  | .riotApi msg code => .apiError code "Riot API error" msg

/-- `handleApiError(error, res)` for anything that is not a `RiotApiError`
(e.g. a `URIError` or `TypeError` escaping the parser): the generic 500. -/
def routeJsError (_ : JsErr) : ApiResponse :=
  .apiError 500 "Internal server error" "An unexpected error occurred"

/-! ## Request orchestrator (GET /api/account, src/server/index.ts) -/

/-- The per-request environment: the settled outcome of the account call and
of each per-platform invocation, plus the cache contents and current time.
These stand for the outcomes of the non-deterministic network calls. -/
structure Env where
  account : Except RiotErr AccountDto
  summonerOutcome : Platform → POutcome SummonerDto
  leagueOutcome : Platform → POutcome (List LeagueEntryDto)
  cache : CacheStore ResponseData
  now : Nat

/-- Parse the validated region string into the enumeration (the route checks
membership in the list of the three region strings). -/
def regionOfString (s : String) : Option Region :=
  if s = "americas" then some .americas
  else if s = "europe" then some .europe
  else if s = "asia" then some .asia
  else none

/-- The `GET /api/account` handler: validate the riot id, parse it, validate
the region, consult the cache, resolve the account, fan out the summoner
lookup (fatal on failure), fan out the league lookup (non-fatal on failure),
merge, persist to the cache, and return.  Any exception thrown on the way is
mapped by the route-level `handleApiError`.  Returns the response together
with the final cache contents. -/
def handleAccountRequest (riotId? : Option String) (region? : Option String)
    (env : Env) : ApiResponse × CacheStore ResponseData :=
  match riotId? with
  | none => (.missingRiotId, env.cache)
  | some riotId =>
    if riotId = "" then (.missingRiotId, env.cache)
    else
      match RiotIdParser.isValid riotId with
      | .error e => (routeJsError e, env.cache)
      | .ok false => (.invalidRiotIdFormat riotId, env.cache)
      | .ok true =>
        match RiotIdParser.parse riotId with
        | .error e => (routeJsError e, env.cache)
        | .ok _rid =>
          match regionOfString (region?.getD "americas") with
          | none => (.invalidRegion (region?.getD "americas"), env.cache)
          | some reg =>
            match getCachedAccountModel env.cache riotId
                (region?.getD "americas") env.now with
            | some data => (.success data true, env.cache)
            | none =>
              match env.account with
              | .error e => (routeRiotError e, env.cache)
              | .ok acct =>
                match queryPlatformsInParallel (fun _ => false) reg
                    env.summonerOutcome with
                | .error e => (routeRiotError e, env.cache)
                | .ok sumRes =>
                  (.success
                      (mkAggResponse acct sumRes.2 sumRes.1
                        (queryPlatformsInParallel
                          (fun l : List LeagueEntryDto => !l.isEmpty) reg
                          env.leagueOutcome).toOption)
                      false,
                    cacheAccountModel env.cache riotId
                      (region?.getD "americas")
                      (mkAggResponse acct sumRes.2 sumRes.1
                        (queryPlatformsInParallel
                          (fun l : List LeagueEntryDto => !l.isEmpty) reg
                          env.leagueOutcome).toOption)
                      env.now)

/-- Whether a response is a terminal error state (anything but `Success`). -/
def ApiResponse.isErrorState : ApiResponse → Bool
  | .success _ _ => false
  | _ => true

/-! ## Upstream client observables (src/api/riot-client.ts) -/

/-- Characters that `encodeURIComponent` leaves unescaped: alphanumerics and
`- _ . ! ~ * ( )` and the apostrophe (all given here by code point). -/
def uriUnreserved (c : Char) : Bool :=
  c.isAlphanum || c.toNat = 45 || c.toNat = 95 || c.toNat = 46 ||
  c.toNat = 33 || c.toNat = 126 || c.toNat = 42 || c.toNat = 39 ||
  c.toNat = 40 || c.toNat = 41

/-- Upper-case hex digit of a value below 16. -/
def hexUpper (n : Nat) : Char :=
  if n < 10 then Char.ofNat ('0'.toNat + n)
  else Char.ofNat ('A'.toNat + n - 10)

/-- UTF-8 bytes of one character. -/
def utf8Bytes (c : Char) : List Nat :=
  let n := c.toNat
  if n < 0x80 then [n]
  else if n < 0x800 then [0xC0 + n / 0x40, 0x80 + n % 0x40]
  else if n < 0x10000 then
    [0xE0 + n / 0x1000, 0x80 + (n / 0x40) % 0x40, 0x80 + n % 0x40]
  else
    [0xF0 + n / 0x40000, 0x80 + (n / 0x1000) % 0x40, 0x80 + (n / 0x40) % 0x40,
      0x80 + n % 0x40]

/-- `encodeURIComponent`. -/
def encodeURIComponentJs (s : String) : String :=
  String.mk (s.data.flatMap fun c =>
    if uriUnreserved c then [c]
    else (utf8Bytes c).flatMap fun b => ['%', hexUpper (b / 16), hexUpper (b % 16)])

/-- `ApiRouting.getRegionalBaseUrl`. -/
def getRegionalBaseUrl : Region → String
  | .americas => "https://americas.api.riotgames.com"
  | .europe => "https://europe.api.riotgames.com"
  | .asia => "https://asia.api.riotgames.com"

/-- `ApiRouting.getPlatformBaseUrl`. -/
def getPlatformBaseUrl (p : Platform) : String :=
  "https://" ++ platformToString p ++ ".api.riotgames.com"

/-- The URL built by `getAccountByRiotId`. -/
def accountUrl (region : Region) (gameName tagLine : String) : String :=
  getRegionalBaseUrl region ++ "/riot/account/v1/accounts/by-riot-id/" ++
    encodeURIComponentJs gameName ++ "/" ++ encodeURIComponentJs tagLine

/-- The URL built by `getSummonerByPuuid`. -/
def summonerUrl (platform : Platform) (puuid : String) : String :=
  getPlatformBaseUrl platform ++ "/lol/summoner/v4/summoners/by-puuid/" ++ puuid

/-- The URL built by `getLeagueEntriesbyEncryptedPUUID`. -/
def leagueUrl (platform : Platform) (puuid : String) : String :=
  getPlatformBaseUrl platform ++ "/lol/league/v4/entries/by-puuid/" ++ puuid

/-- An outgoing HTTP request: the credential is placed in the
`X-Riot-Token` header by the axios instance created in the constructor. -/
structure HttpRequest where
  url : String
  headers : List (String × String)
deriving DecidableEq, Repr

/-- Settled outcome of one upstream HTTP exchange, as seen by the client:
either a 2xx response with a parsed value and its JSON text, or a failure
described by the Axios error object. -/
inductive CallOutcome (α : Type) where
  | success (status : Nat) (dataJson : String) (value : α) : CallOutcome α
  | failure (e : AxiosErrorModel) : CallOutcome α

/-- The log line printed for the request headers: the token is masked. -/
def maskedHeadersLog : String :=
  "📤 Headers: \x7b X-Riot-Token: ***hidden*** \x7d"

/-- The `console.log` lines of `_handleApiError` (including the extra 403
line), all derived from the upstream response, never from the credential. -/
def handleApiErrorLogs (e : AxiosErrorModel) : List String :=
  ["🚨 Riot API Error Details:",
   "📊 Status: " ++ toString e.status,
   "📊 Response Headers: " ++ e.respHeadersText,
   "📊 Response Data: " ++ e.respMessage.getD "undefined",
   "📊 Request URL: " ++ e.configUrl.getD "undefined",
   "📊 Request Method: get"] ++
  (if e.status = 403 then ["🔒 403 Forbidden - API Key Permission Issue"] else [])

/-- Everything one client call produces: the outgoing request, the log lines,
and the result surfaced to the orchestrator. -/
structure CallEffect (α : Type) where
  request : HttpRequest
  logs : List String
  result : Except RiotErr α

/-- Generic body of the three client methods: log the request (with the
masked header line), then either log the response and return its value, or
run the error interceptor (`_handleApiError`), log the caught error, and
rethrow.  `intro` is the per-method banner, `wrapMsg`/`wrapCode` the generic
wrapper applied if a non-`RiotApiError` were caught (never reached, since the
interceptor always throws `RiotApiError` subclasses). -/
def clientCall {α : Type} (apiKey : String) (intro url errBanner : String)
    (outcome : CallOutcome α) : CallEffect α :=
  { request := ⟨url, [("X-Riot-Token", apiKey)]⟩,
    logs :=
      [intro, "📤 URL: " ++ url, maskedHeadersLog] ++
      (match outcome with
        | .success st dataJson _ =>
          ["📥 Response:", "📊 Status: " ++ toString st, "📊 Data: " ++ dataJson]
        | .failure e =>
          handleApiErrorLogs e ++
            [errBanner ++ (handleApiErrorFn e).message]),
    result :=
      match outcome with
      | .success _ _ v => .ok v
      | .failure e => .error (handleApiErrorFn e) }

/-- `RiotClient.getAccountByRiotId` observables. -/
def getAccountByRiotIdModel (apiKey gameName tagLine : String) (region : Region)
    (outcome : CallOutcome AccountDto) : CallEffect AccountDto :=
  clientCall apiKey "🌐 Riot API Request:" (accountUrl region gameName tagLine)
    "❌ Riot API Error: " outcome

/-- `RiotClient.getSummonerByPuuid` observables. -/
def getSummonerByPuuidModel (apiKey puuid : String) (platform : Platform)
    (outcome : CallOutcome SummonerDto) : CallEffect SummonerDto :=
  clientCall apiKey "🌐 Summoner-V4 Request:" (summonerUrl platform puuid)
    "❌ Summoner-V4 Error: " outcome

/-- `RiotClient.getLeagueEntriesbyEncryptedPUUID` observables. -/
def getLeagueEntriesModel (apiKey puuid : String) (platform : Platform)
    (outcome : CallOutcome (List LeagueEntryDto)) :
    CallEffect (List LeagueEntryDto) :=
  clientCall apiKey "🌐 League-V4 Request:" (leagueUrl platform puuid)
    "❌ League-V4 Error: " outcome

/-- The error payload the caller receives when a call fails: the client error
mapped through the route-level `handleApiError`. -/
def errorPayloadOf {α : Type} (c : CallEffect α) : Option ApiResponse :=
  match c.result with
  | .error e => some (routeRiotError e)
  | .ok _ => none

/-! ## Helper lemmas -/

/-- Splitting on `#` yields one more part than the number of `#` characters. -/
theorem splitOnHash_length (cs : List Char) :
    (splitOnHash cs).length = cs.count '#' + 1 := by
  induction cs with
  | nil => rfl
  | cons c rest ih =>
    by_cases hc : c = '#'
    · subst hc
      simp [splitOnHash, List.count_cons, ih]
    · simp only [splitOnHash, if_neg hc]
      cases hsp : splitOnHash rest with
      | nil => rw [hsp] at ih; simp at ih
      | cons h tl =>
        rw [hsp] at ih
        simp only [List.length_cons] at ih ⊢
        simp [List.count_cons, hc, ih]

/-- A string with exactly one `#` splits into exactly two parts. -/
theorem splitOnHash_pair (d : List Char) (h : d.count '#' = 1) :
    ∃ g t, splitOnHash d = [g, t] := by
  have hl : (splitOnHash d).length = 2 := by rw [splitOnHash_length, h]
  rcases List.length_eq_two.mp hl with ⟨g, t, hgt⟩
  exact ⟨g, t, hgt⟩

/-- The first loop of the fan-out is the first success with data among the
settled successes taken in platform enumeration order. -/
theorem firstWithData_eq_find {T : Type} (ne : T → Bool)
    (s : Platform → POutcome T) (l : List Platform) :
    firstWithData ne s l = (successesOf s l).find? (fun pr => ne pr.2) := by
  induction l with
  | nil => rfl
  | cons p ps ih =>
    simp only [firstWithData, successesOf]
    cases hs : s p with
    | ok d =>
      simp only [List.find?_cons]
      by_cases hne : ne d
      · simp [hne]
      · simp [hne, ih]
    | err => simpa using ih

/-- The second loop of the fan-out is the head of the settled successes. -/
theorem firstSuccess_eq_head {T : Type} (s : Platform → POutcome T)
    (l : List Platform) :
    firstSuccess s l = (successesOf s l).head? := by
  induction l with
  | nil => rfl
  | cons p ps ih =>
    simp only [firstSuccess, successesOf]
    cases hs : s p with
    | ok d => simp
    | err => simpa using ih

/-- The settled successes depend only on the per-platform outcomes. -/
theorem successesOf_congr {T : Type} {s s' : Platform → POutcome T}
    {l : List Platform} (h : ∀ p ∈ l, s p = s' p) :
    successesOf s l = successesOf s' l := by
  induction l with
  | nil => rfl
  | cons p ps ih =>
    simp only [successesOf]
    rw [h p (List.mem_cons_self p ps)]
    cases s' p with
    | ok d => rw [ih (fun q hq => h q (List.mem_cons_of_mem p hq))]
    | err => exact ih (fun q hq => h q (List.mem_cons_of_mem p hq))

/-- No settled success exists exactly when every platform failed. -/
theorem successesOf_eq_nil_iff {T : Type} (s : Platform → POutcome T)
    (l : List Platform) :
    successesOf s l = [] ↔ ∀ p ∈ l, s p = .err := by
  induction l with
  | nil => simp [successesOf]
  | cons p ps ih =>
    simp only [successesOf]
    cases hs : s p with
    | ok d => simp [hs]
    | err => simp [hs, ih]

/-- On a non-empty argument that decodes, `isValid` returns exactly the shape
test of the decoded string. -/
theorem isValidCore_of_decode (cs d : List Char) (hne : cs ≠ [])
    (hdec : decodeCore cs = some d) :
    RiotIdParser.isValidCore cs = .ok (shapeOkB d) := by
  have hne' : cs.isEmpty = false := by simpa [List.isEmpty_iff] using hne
  simp only [RiotIdParser.isValidCore, hne', hdec, Bool.false_eq_true,
    if_false]
  by_cases hcount : d.count '#' = 1
  · by_cases hfal : (jsFalsyOptTrim (splitOnHash d)[0]? ||
        jsFalsyOptTrim (splitOnHash d)[1]?) = true
    · rcases Bool.or_eq_true_iff.mp hfal with hf | hf <;>
        simp [hcount, hfal, shapeOkB, hf]
    · have hsp := Bool.or_eq_false_iff.mp (Bool.not_eq_true _ ▸ hfal)
      simp [hcount, hfal, shapeOkB, hsp.1, hsp.2]
  · simp [hcount, shapeOkB]

/-- A string with one `#` is non-empty. -/
theorem count_one_ne_nil {d : List Char} (h : d.count '#' = 1) : d ≠ [] := by
  intro hnil
  rw [hnil] at h
  simp at h

/-- Unfolding of the shape test. -/
theorem shapeOkB_true_iff (d : List Char) :
    shapeOkB d = true ↔ d.count '#' = 1 ∧
      jsFalsyOptTrim (splitOnHash d)[0]? = false ∧
      jsFalsyOptTrim (splitOnHash d)[1]? = false := by
  simp [shapeOkB, Bool.and_eq_true, decide_eq_true_eq, Bool.not_eq_true']
  tauto

/-- Decoding the empty string yields the empty string. -/
theorem decode_nil_inj {d : List Char} (hdec : decodeCore [] = some d) :
    d = [] := by
  have h2 : some ([] : List Char) = some d := hdec
  exact (Option.some_injective _ h2).symm

/-! ## Claim theorems -/

/-- Claim C1: after all per-platform invocations have settled,
`queryPlatformsInParallel` returns the first settled success (in platform
enumeration order) whose payload is a non-empty array if one exists,
otherwise the first settled success of any kind; the selected result depends
only on the settled outcome of each platform (`s` agrees with the arbitrary
relabelling `s'` of completion information), never on completion order,
because the engine is a function of the per-platform settled outcomes alone
(`Promise.allSettled` preserves the enumeration order of the platforms
array).  `selectBySpecPolicy` is the selection policy transcribed from the
spec. -/
theorem queryPlatformsInParallel_selects_per_spec {T : Type} (ne : T → Bool)
    (region : Region) (s s' : Platform → POutcome T)
    (h : ∀ p ∈ getPlatformsForRegion region, s p = s' p) :
    queryPlatformsInParallel ne region s = selectBySpecPolicy ne region s' := by
  unfold queryPlatformsInParallel selectBySpecPolicy
  rw [firstWithData_eq_find, firstSuccess_eq_head, successesOf_congr h]

/-- Witness for C1: the spec example — platform 1 fails, platform 2 succeeds
with an empty sequence, platform 3 succeeds with data, so the engine picks
platform 3. -/
theorem queryPlatformsInParallel_selects_per_spec_witness :
    queryPlatformsInParallel (fun l : List Nat => !l.isEmpty) .americas
      (fun p => match p with
        | .na1 => .err
        | .br1 => .ok []
        | .la1 => .ok [5]
        | _ => .err) =
      .ok (Platform.la1, [5]) := by
  rw [queryPlatformsInParallel_selects_per_spec (fun l : List Nat => !l.isEmpty)
    .americas _ _ (fun p _ => rfl)]
  rfl

/-- Claim C2 counterexample: with `wins = 0` and `losses = 0` the win-rate
expression of the route is NOT guarded — the division is performed, the
result is NaN (`none` in the model), and only JSON serialisation turns this
NaN winRate into `null`.  This falsifies the part of the claim stating the
division by zero is guarded and never produces NaN or Infinity. -/
theorem winRate_zero_denominator_not_guarded :
    jsDivNum (0 : ℚ) ((0 : ℚ) + (0 : ℚ)) = none
    ∧ winRateNum 0 0 = none
    ∧ (mkQueueStats ⟨"RANKED_SOLO_5x5", "GOLD", "I", 10, 0, 0⟩).winRate = none
    ∧ serializeNumField
        (mkQueueStats ⟨"RANKED_SOLO_5x5", "GOLD", "I", 10, 0, 0⟩).winRate =
        .null := by
  refine ⟨?_, ?_, ?_, ?_⟩ <;>
    simp [jsDivNum, winRateNum, jsMathRound, mkQueueStats, serializeNumField]

/-- Claim C2 (amended): whenever a ranked entry is selected for a queue, its
winRate equals `round(100 * wins / (wins + losses))` when
`wins + losses > 0`; when `wins + losses = 0` the unguarded division produces
NaN, which `res.json` serialises as `null` — so the caller observes a null
winRate, but through NaN serialisation, not through a guard. -/
theorem winRate_formula_and_nan_serialization (e : LeagueEntryDto) :
    (0 < e.wins + e.losses →
      (mkQueueStats e).winRate =
        some ⌊(100 * (e.wins : ℚ)) / ((e.wins : ℚ) + (e.losses : ℚ)) + 1 / 2⌋)
    ∧ (e.wins + e.losses = 0 →
      (mkQueueStats e).winRate = none ∧
      serializeNumField (mkQueueStats e).winRate = .null) := by
  constructor
  · intro hpos
    have hne : ((e.wins : ℚ) + (e.losses : ℚ)) ≠ 0 := by
      have h1 : (0 : ℚ) < (e.wins : ℚ) + (e.losses : ℚ) := by exact_mod_cast hpos
      linarith
    have harg : (e.wins : ℚ) / ((e.wins : ℚ) + (e.losses : ℚ)) * 100 =
        100 * (e.wins : ℚ) / ((e.wins : ℚ) + (e.losses : ℚ)) := by ring
    simp only [mkQueueStats, winRateNum, jsDivNum, if_neg hne, jsMathRound,
      Option.map_some', harg]
  · intro h0
    have hz : ((e.wins : ℚ) + (e.losses : ℚ)) = 0 := by exact_mod_cast h0
    simp [mkQueueStats, winRateNum, jsDivNum, hz, jsMathRound, serializeNumField]

/-- Witness for C2: the spec example `wins = 44, losses = 47` gives
`winRate = 48`. -/
theorem winRate_formula_witness :
    (mkQueueStats ⟨"RANKED_SOLO_5x5", "GOLD", "I", 10, 44, 47⟩).winRate =
      some 48 := by
  have h := (winRate_formula_and_nan_serialization
    ⟨"RANKED_SOLO_5x5", "GOLD", "I", 10, 44, 47⟩).1 (by norm_num)
  rw [h]
  simp only [Option.some.injEq]
  rw [Int.floor_eq_iff]; norm_num

/-- Claim C3: when validation, account resolution and the summoner (profile)
fan-out succeed but the league (ranked-stats) fan-out fails on every platform
of the region, the request still terminates in a fresh `Success` whose
account and profile data are the resolved values and whose `rankedStats` is
`{soloDuo: null, flex: null}` — the ranked-stats failure never fails the
request. -/
theorem rankedStats_failure_nonfatal (riotId : String) (region? : Option String)
    (env : Env) (reg : Region) (acct : AccountDto)
    (sumRes : Platform × SummonerDto)
    (hne : riotId ≠ "")
    (hvalid : RiotIdParser.isValid riotId = .ok true)
    (hparse : ∃ rid, RiotIdParser.parse riotId = .ok rid)
    (hreg : regionOfString (region?.getD "americas") = some reg)
    (hmiss : getCachedAccountModel env.cache riotId (region?.getD "americas")
      env.now = none)
    (hacct : env.account = .ok acct)
    (hsum : queryPlatformsInParallel (fun _ => false) reg env.summonerOutcome =
      .ok sumRes)
    (hleague : ∀ p ∈ getPlatformsForRegion reg, env.leagueOutcome p = .err) :
    handleAccountRequest (some riotId) region? env =
      (.success (mkAggResponse acct sumRes.2 sumRes.1 none) false,
        cacheAccountModel env.cache riotId (region?.getD "americas")
          (mkAggResponse acct sumRes.2 sumRes.1 none) env.now)
    ∧ (mkAggResponse acct sumRes.2 sumRes.1 none).rankedStats.soloDuo = none
    ∧ (mkAggResponse acct sumRes.2 sumRes.1 none).rankedStats.flex = none
    ∧ (mkAggResponse acct sumRes.2 sumRes.1 none).puuid = acct.puuid
    ∧ (mkAggResponse acct sumRes.2 sumRes.1 none).gameName = acct.gameName
    ∧ (mkAggResponse acct sumRes.2 sumRes.1 none).tagLine = acct.tagLine
    ∧ (mkAggResponse acct sumRes.2 sumRes.1 none).summonerInfo.puuid =
        sumRes.2.puuid
    ∧ (mkAggResponse acct sumRes.2 sumRes.1 none).platformLeague = "none" := by
  have hqL : queryPlatformsInParallel (fun l : List LeagueEntryDto => !l.isEmpty)
      reg env.leagueOutcome =
      .error (.playerNotFound
        ("Player not found on any platform in " ++ regionToString reg)) := by
    unfold queryPlatformsInParallel
    rw [firstWithData_eq_find, firstSuccess_eq_head,
      (successesOf_eq_nil_iff _ _).mpr hleague]
    rfl
  obtain ⟨rid, hrid⟩ := hparse
  refine ⟨?_, rfl, rfl, rfl, rfl, rfl, rfl, rfl⟩
  simp only [handleAccountRequest, if_neg hne, hvalid, hrid, hreg, hmiss,
    hacct, hsum, hqL]
  rfl

/-- Witness for C3: a concrete request where the league fan-out fails
everywhere still produces a fresh success with null ranked stats. -/
theorem rankedStats_failure_nonfatal_witness :
    handleAccountRequest (some "Faker#KR1") none
      { account := .ok ⟨"p1", "Faker", "KR1"⟩,
        summonerOutcome := fun p =>
          if p = .na1 then .ok ⟨some "sid", none, "spuuid", some "", 10, 30, 99⟩
          else .err,
        leagueOutcome := fun _ => .err,
        cache := [],
        now := 5 } =
      (.success (mkAggResponse ⟨"p1", "Faker", "KR1"⟩
          ⟨some "sid", none, "spuuid", some "", 10, 30, 99⟩ .na1 none) false,
        cacheAccountModel [] "Faker#KR1" "americas"
          (mkAggResponse ⟨"p1", "Faker", "KR1"⟩
            ⟨some "sid", none, "spuuid", some "", 10, 30, 99⟩ .na1 none) 5)
    ∧ (mkAggResponse ⟨"p1", "Faker", "KR1"⟩
        ⟨some "sid", none, "spuuid", some "", 10, 30, 99⟩ .na1
        none).rankedStats.soloDuo = none
    ∧ (mkAggResponse ⟨"p1", "Faker", "KR1"⟩
        ⟨some "sid", none, "spuuid", some "", 10, 30, 99⟩ .na1
        none).rankedStats.flex = none := by
  have h := rankedStats_failure_nonfatal "Faker#KR1" none
    { account := .ok ⟨"p1", "Faker", "KR1"⟩,
      summonerOutcome := fun p =>
        if p = .na1 then .ok ⟨some "sid", none, "spuuid", some "", 10, 30, 99⟩
        else .err,
      leagueOutcome := fun _ => .err,
      cache := [],
      now := 5 }
    .americas ⟨"p1", "Faker", "KR1"⟩
    (.na1, ⟨some "sid", none, "spuuid", some "", 10, 30, 99⟩)
    (by decide) rfl ⟨⟨"Faker", "KR1"⟩, rfl⟩ rfl rfl rfl rfl (by decide)
  exact ⟨h.1, h.2.1, h.2.2.1⟩

/-- Claim C4: the fan-out fails — necessarily with a `PlayerNotFoundError`
naming the region — exactly when every per-platform invocation failed, and
whenever at least one platform succeeded the fan-out returns a success, so an
individual platform failure never propagates on its own. -/
theorem fanout_notFound_iff_all_fail {T : Type} (ne : T → Bool)
    (region : Region) (s : Platform → POutcome T) :
    (queryPlatformsInParallel ne region s =
        .error (.playerNotFound
          ("Player not found on any platform in " ++ regionToString region))
      ↔ ∀ p ∈ getPlatformsForRegion region, s p = .err)
    ∧ (∀ e, queryPlatformsInParallel ne region s = .error e →
        e = .playerNotFound
          ("Player not found on any platform in " ++ regionToString region))
    ∧ ((∃ p ∈ getPlatformsForRegion region, s p ≠ .err) →
        ∃ r, queryPlatformsInParallel ne region s = .ok r) := by
  unfold queryPlatformsInParallel
  rw [firstWithData_eq_find, firstSuccess_eq_head]
  cases hE : successesOf s (getPlatformsForRegion region) with
  | nil =>
    have hall := (successesOf_eq_nil_iff s (getPlatformsForRegion region)).mp hE
    refine ⟨⟨fun _ => hall, fun _ => by simp⟩, by simp, ?_⟩
    rintro ⟨p, hp, hne⟩
    exact absurd (hall p hp) hne
  | cons a as =>
    have hnotall : ¬ ∀ p ∈ getPlatformsForRegion region, s p = .err := by
      intro hall
      have := (successesOf_eq_nil_iff s (getPlatformsForRegion region)).mpr hall
      rw [hE] at this
      exact List.cons_ne_nil a as this
    constructor
    · constructor
      · intro hcontra
        exfalso
        revert hcontra
        cases hfind : (a :: as).find? (fun pr => ne pr.2) <;> simp
      · intro hall
        exact absurd hall hnotall
    · constructor
      · intro e he
        exfalso
        revert he
        cases hfind : (a :: as).find? (fun pr => ne pr.2) <;> simp
      · intro _
        cases hfind : (a :: as).find? (fun pr => ne pr.2) with
        | none => exact ⟨a, by simp [hfind]⟩
        | some r => exact ⟨r, by simp [hfind]⟩

/-- Witness for C4: with every platform failing the engine fails with the
region-naming `PlayerNotFoundError`, and with one platform succeeding it
returns a success. -/
theorem fanout_notFound_iff_all_fail_witness :
    queryPlatformsInParallel (fun l : List Nat => !l.isEmpty) .europe
      (fun _ => .err) =
      .error (.playerNotFound "Player not found on any platform in europe")
    ∧ (queryPlatformsInParallel (fun l : List Nat => !l.isEmpty) .asia
        (fun p => if p = .kr then .ok [1] else .err)).toOption.isSome = true := by
  constructor
  · exact (fanout_notFound_iff_all_fail
      (fun l : List Nat => !l.isEmpty) .europe (fun _ => .err)).1.mpr (by decide)
  · obtain ⟨r, hr⟩ := (fanout_notFound_iff_all_fail
      (fun l : List Nat => !l.isEmpty) .asia
      (fun p => if p = .kr then .ok [1] else .err)).2.2
      ⟨.kr, by decide, by decide⟩
    rw [hr]
    rfl

/-- Claim C5: `_handleApiError` maps every upstream HTTP failure to the error
taxonomy — 401 to `InvalidApiKeyError`, 404 to `PlayerNotFoundError`, 429 to
`RateLimitError` carrying the parsed `retry-after` header (defaulting to 60
seconds when the header is absent), and any other status to a generic
`RiotApiError` that preserves the upstream status code, with 500 used when no
response status is available (transport failure). -/
theorem handleApiError_taxonomy_mapping (e : AxiosErrorModel) :
    (e.respStatus = some 401 → handleApiErrorFn e = .invalidApiKey)
    ∧ (e.respStatus = some 404 →
        handleApiErrorFn e = .playerNotFound "Player not found")
    ∧ (∀ h n, e.respStatus = some 429 → e.retryAfterHeader = some h →
        h ≠ "" → jsParseInt h = some n →
        handleApiErrorFn e = .rateLimit (some n))
    ∧ (e.respStatus = some 429 → e.retryAfterHeader = none →
        handleApiErrorFn e = .rateLimit (some 60))
    ∧ (∀ s, e.respStatus = some s → s ≠ 0 → s ≠ 401 → s ≠ 404 → s ≠ 429 →
        (handleApiErrorFn e).statusCode = s ∧
        ∃ msg, handleApiErrorFn e = .riotApi msg s)
    ∧ (e.respStatus = none →
        handleApiErrorFn e = .riotApi "Internal server error" 500) := by
  refine ⟨?_, ?_, ?_, ?_, ?_, ?_⟩
  · intro h
    simp [handleApiErrorFn, AxiosErrorModel.status, jsOrNat, h]
  · intro h
    simp [handleApiErrorFn, AxiosErrorModel.status, jsOrNat, h]
  · intro hd n h hh hne hp
    simp [handleApiErrorFn, AxiosErrorModel.status, jsOrNat, h, hh, hne, hp]
  · intro h hh
    simp [handleApiErrorFn, AxiosErrorModel.status, jsOrNat, h, hh]
  · intro s h h0 h401 h404 h429
    have hst : e.status = s := by simp [AxiosErrorModel.status, jsOrNat, h, h0]
    by_cases h400 : s = 400
    · subst h400; simp [handleApiErrorFn, hst, RiotErr.statusCode]
    by_cases h403 : s = 403
    · subst h403; simp [handleApiErrorFn, hst, RiotErr.statusCode]
    by_cases h500 : s = 500
    · subst h500; simp [handleApiErrorFn, hst, RiotErr.statusCode]
    by_cases h502 : s = 502
    · subst h502; simp [handleApiErrorFn, hst, RiotErr.statusCode]
    by_cases h503 : s = 503
    · subst h503; simp [handleApiErrorFn, hst, RiotErr.statusCode]
    by_cases h504 : s = 504
    · subst h504; simp [handleApiErrorFn, hst, RiotErr.statusCode]
    · simp [handleApiErrorFn, hst, h400, h401, h403, h404, h429, h500, h502,
        h503, h504, RiotErr.statusCode]
  · intro h
    simp [handleApiErrorFn, AxiosErrorModel.status, jsOrNat, h]

/-- Witness for C5: concrete instances of every branch of the mapping. -/
theorem handleApiError_taxonomy_mapping_witness :
    handleApiErrorFn ⟨some 401, none, "m", none, "", none⟩ = .invalidApiKey
    ∧ handleApiErrorFn ⟨some 404, none, "m", none, "", none⟩ =
        .playerNotFound "Player not found"
    ∧ handleApiErrorFn ⟨some 429, none, "m", some "42", "", none⟩ =
        .rateLimit (some 42)
    ∧ handleApiErrorFn ⟨some 429, none, "m", none, "", none⟩ =
        .rateLimit (some 60)
    ∧ (handleApiErrorFn ⟨some 503, none, "m", none, "", none⟩).statusCode = 503
    ∧ handleApiErrorFn ⟨none, none, "socket hang up", none, "", none⟩ =
        .riotApi "Internal server error" 500 :=
  ⟨(handleApiError_taxonomy_mapping _).1 rfl,
   (handleApiError_taxonomy_mapping _).2.1 rfl,
   (handleApiError_taxonomy_mapping _).2.2.1 "42" 42 rfl rfl (by decide)
     (by decide),
   (handleApiError_taxonomy_mapping _).2.2.2.1 rfl rfl,
   ((handleApiError_taxonomy_mapping _).2.2.2.2.1 503 rfl (by decide)
     (by decide) (by decide) (by decide)).1,
   (handleApiError_taxonomy_mapping _).2.2.2.2.2 rfl⟩

/-- Claim C6 counterexample: the raw identity `"Faker%2523KR1#X"` decodes to
`"Faker%23KR1#X"`, which has exactly one `#` with both halves non-empty, so
the hypothesis of the claim holds and `isValid` returns true — yet `parse`
throws, because it validates the once-decoded string by decoding it a second
time (giving `"Faker#KR1#X"`, two delimiters).  This falsifies the claim that
`parse` returns the trimmed pair for every such input. -/
theorem isValid_parse_double_decode_mismatch :
    decodeURIComponentJs "Faker%2523KR1#X" = some "Faker%23KR1#X"
    ∧ shapeOkB ("Faker%23KR1#X".data) = true
    ∧ RiotIdParser.isValid "Faker%2523KR1#X" = .ok true
    ∧ RiotIdParser.parse "Faker%2523KR1#X" =
        .error (.formatError
          "Invalid Riot ID format: Faker%23KR1#X. Expected format: \"gameName#tagLine\"") :=
  ⟨rfl, rfl, rfl, rfl⟩

/-- Claim C6 (amended): for every raw identity whose percent-decoding
succeeds and yields exactly one `#` with both halves non-empty after
trimming, `isValid` returns true; and `parse` returns the pair of the two
trimmed halves of the decoded string provided the decoded string itself
still passes the same validity test when decoded a second time (`parse`
re-validates the once-decoded string through `isValid`, which decodes
again; without that proviso `parse` can throw, as the counterexample
shows). -/
theorem valid_riotid_parse_roundtrip (raw : String) (d : List Char)
    (hdec : decodeCore raw.data = some d) (hshape : shapeOkB d = true) :
    RiotIdParser.isValid raw = .ok true
    ∧ (∀ d2, decodeCore d = some d2 → shapeOkB d2 = true →
      RiotIdParser.parse raw =
        .ok ⟨String.mk (jsTrimL ((splitOnHash d).getD 0 [])),
             String.mk (jsTrimL ((splitOnHash d).getD 1 []))⟩) := by
  obtain ⟨hcount, hf0, hf1⟩ := (shapeOkB_true_iff d).mp hshape
  have hrawne : raw.data ≠ [] := by
    intro hnil
    rw [hnil] at hdec
    exact count_one_ne_nil hcount (decode_nil_inj hdec)
  constructor
  · rw [RiotIdParser.isValid, isValidCore_of_decode raw.data d hrawne hdec,
      hshape]
  · intro d2 hd2 hshape2
    obtain ⟨g, t, hgt⟩ := splitOnHash_pair d hcount
    simp only [RiotIdParser.parse, RiotIdParser.parseCore, hdec,
      isValidCore_of_decode d d2 (count_one_ne_nil hcount) hd2, hshape2, hgt]
    rfl

/-- Witness for C6: the spec example — both halves are trimmed. -/
theorem valid_riotid_parse_roundtrip_witness :
    RiotIdParser.isValid "  Faker  #  KR1  " = .ok true
    ∧ RiotIdParser.parse "  Faker  #  KR1  " = .ok ⟨"Faker", "KR1"⟩ := by
  have h := valid_riotid_parse_roundtrip "  Faker  #  KR1  "
    ("  Faker  #  KR1  ".data) rfl rfl
  exact ⟨h.1, h.2 ("  Faker  #  KR1  ".data) rfl rfl⟩

/-- Claim C7 counterexample: `isValid "%"` raises `URIError` (the decode of
the argument throws before any boolean is returned), falsifying the claim
that `isValid` returns false as a boolean without raising for every input
with zero delimiters; and `parse "%41"` fails with an `Error` whose message
carries the DECODED input `A`, not the original raw input `%41`, falsifying
the claim that the error carries the original raw input. -/
theorem isValid_uriError_and_parse_decoded_message :
    RiotIdParser.isValid "%" = .error .uriError
    ∧ RiotIdParser.parse "%41" =
        .error (.formatError
          "Invalid Riot ID format: A. Expected format: \"gameName#tagLine\"") :=
  ⟨rfl, rfl⟩

/-- Claim C7 (amended): for every raw identity whose percent-decoding
succeeds but fails the shape test (zero or two-or-more delimiters, or an
empty half after trimming — the empty string included), `isValid` returns
the boolean false without raising; non-string input is likewise rejected
with false.  `parse` fails with the format `Error` carrying the DECODED
input (not the raw one), provided the decoded string also decodes and still
fails the shape test (when decoding of the argument or of the decoded string
throws, `isValid` and `parse` propagate `URIError` instead, as the
counterexample shows). -/
theorem invalid_riotid_rejected (raw : String) (d : List Char)
    (hdec : decodeCore raw.data = some d) (hbad : shapeOkB d = false) :
    RiotIdParser.isValid raw = .ok false
    ∧ RiotIdParser.isValidInput .nonstring = .ok false
    ∧ (∀ d2, decodeCore d = some d2 → shapeOkB d2 = false →
        RiotIdParser.parse raw =
          .error (.formatError (RiotIdParser.formatMsg d))) := by
  refine ⟨?_, rfl, ?_⟩
  · by_cases hnil : raw.data = []
    · rw [RiotIdParser.isValid, hnil]
      rfl
    · rw [RiotIdParser.isValid, isValidCore_of_decode raw.data d hnil hdec,
        hbad]
  · intro d2 hd2 hbad2
    by_cases hdnil : d = []
    · subst hdnil
      simp only [RiotIdParser.parse, RiotIdParser.parseCore, hdec]
      rfl
    · simp only [RiotIdParser.parse, RiotIdParser.parseCore, hdec,
        isValidCore_of_decode d d2 hdnil hd2, hbad2]
      rfl

/-- Witness for C7: a delimiter-free identity is rejected by `isValid` and
makes `parse` fail with the format error; non-string input gives false. -/
theorem invalid_riotid_rejected_witness :
    RiotIdParser.isValid "Faker" = .ok false
    ∧ RiotIdParser.isValidInput .nonstring = .ok false
    ∧ RiotIdParser.parse "Faker" =
        .error (.formatError (RiotIdParser.formatMsg "Faker".data)) := by
  have h := invalid_riotid_rejected "Faker" ("Faker".data) rfl rfl
  exact ⟨h.1, h.2.1, h.2.2 ("Faker".data) rfl rfl⟩

/-- Claim C8: the authentication credential never appears in any error
payload returned to the caller nor in any log output of the upstream client
or the error handler, for every request and every upstream outcome.
Formalised as noninterference: every observable — the log lines of each of
the three client methods (request banner, URL, masked header line, response
or `_handleApiError` diagnostics), the surfaced result, and the error payload
produced by the route-level error handler — is identical under two arbitrary
credentials, even though the credential does flow into the outgoing request
headers (last conjunct, showing the statement is not vacuous). -/
theorem api_key_noninterference (k1 k2 gameName tagLine puuid : String)
    (region : Region) (platform : Platform) (oA : CallOutcome AccountDto)
    (oS : CallOutcome SummonerDto) (oL : CallOutcome (List LeagueEntryDto)) :
    (getAccountByRiotIdModel k1 gameName tagLine region oA).logs =
      (getAccountByRiotIdModel k2 gameName tagLine region oA).logs
    ∧ (getAccountByRiotIdModel k1 gameName tagLine region oA).result =
      (getAccountByRiotIdModel k2 gameName tagLine region oA).result
    ∧ errorPayloadOf (getAccountByRiotIdModel k1 gameName tagLine region oA) =
      errorPayloadOf (getAccountByRiotIdModel k2 gameName tagLine region oA)
    ∧ (getSummonerByPuuidModel k1 puuid platform oS).logs =
      (getSummonerByPuuidModel k2 puuid platform oS).logs
    ∧ (getSummonerByPuuidModel k1 puuid platform oS).result =
      (getSummonerByPuuidModel k2 puuid platform oS).result
    ∧ errorPayloadOf (getSummonerByPuuidModel k1 puuid platform oS) =
      errorPayloadOf (getSummonerByPuuidModel k2 puuid platform oS)
    ∧ (getLeagueEntriesModel k1 puuid platform oL).logs =
      (getLeagueEntriesModel k2 puuid platform oL).logs
    ∧ (getLeagueEntriesModel k1 puuid platform oL).result =
      (getLeagueEntriesModel k2 puuid platform oL).result
    ∧ errorPayloadOf (getLeagueEntriesModel k1 puuid platform oL) =
      errorPayloadOf (getLeagueEntriesModel k2 puuid platform oL)
    ∧ ("X-Riot-Token", k1) ∈
      (getAccountByRiotIdModel k1 gameName tagLine region oA).request.headers := by
  refine ⟨rfl, rfl, rfl, rfl, rfl, rfl, rfl, rfl, rfl, ?_⟩
  simp [getAccountByRiotIdModel, clientCall]

/-- Claim C9: cache round trip — after `set(key, value, ttl)` with a positive
ttl, `get(key)` returns the stored value before the ttl has elapsed and
absent after expiry; `CacheService.set` forwards the positive ttl unchanged;
and the aggregate-account and icon namespaces both store with the 86400
second (24 hour) ttl. -/
theorem cache_roundtrip_and_ttl {α : Type} (st : CacheStore α) (key : String)
    (v : α) (ttl now t : Nat) (hpos : 0 < ttl) :
    cacheServiceSet st key v (some ttl) now = cacheSet st key v ttl now
    ∧ (t < now + ttl * 1000 →
        cacheGet (cacheSet st key v ttl now) key t = some v)
    ∧ (now + ttl * 1000 < t →
        cacheGet (cacheSet st key v ttl now) key t = none)
    ∧ (∀ rid regn (d : α), cacheAccountModel st rid regn d now =
        cacheSet st (cacheKeyAccount rid regn) d 86400 now)
    ∧ (∀ iconId (d : α), cacheIconModel st iconId d now =
        cacheSet st (cacheKeyIcon iconId) d 86400 now) := by
  have hset : cacheGet (cacheSet st key v ttl now) key t =
      if now + ttl * 1000 = 0 ∨ t ≤ now + ttl * 1000 then some v else none := by
    simp [cacheGet, cacheSet, List.find?]
  refine ⟨?_, ?_, ?_, ?_, ?_⟩
  · simp [cacheServiceSet, jsOrNat, Nat.pos_iff_ne_zero.mp hpos]
  · intro ht
    rw [hset, if_pos (Or.inr (Nat.le_of_lt ht))]
  · intro ht
    rw [hset, if_neg]
    push_neg
    exact ⟨by omega, by omega⟩
  · intro rid regn d
    simp [cacheAccountModel, cacheServiceSet, jsOrNat, cacheTTLaccount]
  · intro iconId d
    simp [cacheIconModel, cacheServiceSet, jsOrNat, cacheTTLicon]

/-- Witness for C9: a value stored with a one second ttl at time 0 is
readable at 500 ms and absent at 2000 ms. -/
theorem cache_roundtrip_and_ttl_witness :
    cacheGet (cacheSet ([] : CacheStore Nat) "k" 7 1 0) "k" 500 = some 7
    ∧ cacheGet (cacheSet ([] : CacheStore Nat) "k" 7 1 0) "k" 2000 = none :=
  ⟨(cache_roundtrip_and_ttl [] "k" 7 1 0 500 (by decide)).2.1 (by decide),
   (cache_roundtrip_and_ttl [] "k" 7 1 0 2000 (by decide)).2.2.1 (by decide)⟩

/-- Claim C10: whenever a `/api/account` request terminates in an error state
(missing or malformed riotId, invalid region, account-resolution failure or
profile fan-out failure, and also any exception escaping the parser), the
aggregation cache is left exactly as it was; conversely the cache changes
only when the request terminates in a fresh (non-cached) `Success`, i.e. the
entry is written only on the success path after account, profile and merge
completed. -/
theorem cache_unchanged_on_error (riotId? region? : Option String) (env : Env) :
    ((handleAccountRequest riotId? region? env).1.isErrorState = true →
      (handleAccountRequest riotId? region? env).2 = env.cache)
    ∧ ((handleAccountRequest riotId? region? env).2 ≠ env.cache →
      ∃ d, (handleAccountRequest riotId? region? env).1 = .success d false) := by
  unfold handleAccountRequest
  repeat' split
  all_goals simp [ApiResponse.isErrorState]

/-- Witness for C10: a malformed riotId leaves the (empty) cache unchanged. -/
theorem cache_unchanged_on_error_witness :
    (handleAccountRequest (some "bad") none
      { account := .error .invalidApiKey, summonerOutcome := fun _ => .err,
        leagueOutcome := fun _ => .err, cache := [], now := 0 }).2 = [] :=
  (cache_unchanged_on_error (some "bad") none
    { account := .error .invalidApiKey, summonerOutcome := fun _ => .err,
      leagueOutcome := fun _ => .err, cache := [], now := 0 }).1 rfl
